import Mathlib

/-!
Verification of mcserverlib (KingsServerLauncher): a shallow embedding of
the version-resolution / install-orchestration core and the managed-process
layer, with theorems settling the behavioural claims about it.

Translation conventions:
* Python exceptions become `Except LibError`; the exception classes of
  `mcserverlib/exceptions.py` become constructors of `LibError`.
* Filesystem state relevant to a claim is passed explicitly (e.g. the prior
  contents of `server.properties` as an association list).
* Outcomes of HTTP fetches and of blocking waits are supplied as explicit
  inputs (`Except`/`Option` values), so each function under test is a pure
  function of the code path it takes.
* Machine integers do not overflow in any modelled code path, so Python
  integers become `Int`/`Nat` directly.
-/

namespace Mcserverlib

/-- The exception taxonomy of `mcserverlib/exceptions.py`. -/
inductive LibError where
  | versionResolutionError (msg : String)
  | downloadError (msg : String)
  | installError (msg : String)
  | manifestError (msg : String)
  | runtimeError (msg : String)
  deriving Repr, DecidableEq

/-- Boolean "is ok" discriminator for `Except` results. -/
def exceptIsOk {ε α : Type} : Except ε α → Bool
  | .ok _ => true
  | .error _ => false

/-! ### Character-level string helpers

Lean's builtin `String` operations use byte positions that the kernel cannot
reduce, so the Python string primitives the source relies on are modelled on
the underlying character lists. -/

/-- `s.endswith(t)` on Python strings. -/
def strEndsWith (s t : String) : Bool :=
  t.toList.isSuffixOf s.toList

/-- `s.startswith(t)` on Python strings. -/
def strStartsWith (s t : String) : Bool :=
  t.toList.isPrefixOf s.toList

/-! ## Managed process (`mcserverlib/process.py`)

The parts of the `subprocess.Popen` handle that `ServerProcess` observes are
modelled explicitly: the result `poll()` returns at entry to a call, the
outcome of each of the three blocking waits of the stop sequence (`some code`
for a natural exit, `none` for `subprocess.TimeoutExpired`), and the stdin
pipe as an optional list of strings written so far (`none` models a closed /
absent stdin). -/

structure ServerProcess where
  pollResult : Option Int
  waitStop : Option Int
  waitTerminate : Option Int
  waitKill : Option Int
  stdinWrites : Option (List String)
  deriving Repr, DecidableEq

/-- `ServerProcess.poll`. -/
def ServerProcess.poll (p : ServerProcess) : Option Int :=
  p.pollResult

/-- `ServerProcess.is_running`: true iff `poll()` returns `None`. -/
def ServerProcess.is_running (p : ServerProcess) : Bool :=
  p.poll = none

/-- `ServerProcess.send_command`: if stdin is gone the call returns without
doing anything; otherwise a newline is appended when absent and the result is
written to the pipe. -/
def ServerProcess.send_command (p : ServerProcess) (command : String) : ServerProcess :=
  match p.stdinWrites with
  | none => p
  | some ws =>
    let written := if strEndsWith command "\n" then command else command ++ "\n"
    { p with stdinWrites := some (ws ++ [written]) }

/-- Signals the stop escalation can deliver. -/
inductive StopSignal where
  | terminate
  | kill
  deriving Repr, DecidableEq

/-- Result of `ServerProcess.stop`: the final process state (recording stdin
writes), the signals delivered in order, and the returned exit code (`none`
when the final `wait(timeout=5)` itself raises `TimeoutExpired`, which
propagates to the caller). -/
structure StopResult where
  proc : ServerProcess
  signals : List StopSignal
  exitCode : Option Int
  deriving Repr, DecidableEq

/-- `ServerProcess.stop`: if the process is not running, return `poll()`'s
code (the `else 0` fallback of the source is unreachable here because `poll`
is stable between the `is_running` check and the re-read). Otherwise send
`"stop"`, wait up to the graceful timeout, and escalate terminate-then-kill,
each stage only after the previous wait timed out. -/
def ServerProcess.stop (p : ServerProcess) : StopResult :=
  if p.is_running = false then
    match p.poll with
    | some code => ⟨p, [], some code⟩
    | none => ⟨p, [], some 0⟩
  else
    let p1 := p.send_command "stop"
    match p.waitStop with
    | some code => ⟨p1, [], some code⟩
    | none =>
      match p.waitTerminate with
      | some code => ⟨p1, [StopSignal.terminate], some code⟩
      | none => ⟨p1, [StopSignal.terminate, StopSignal.kill], p.waitKill⟩

/-- C3 counterexample: calling `stop` on a process that already exited with
code 7 returns 7, not the 0 the claim asserts for the already-exited case. -/
theorem stop_already_exited_returns_seven_not_zero :
    (ServerProcess.stop ⟨some 7, none, none, none, some []⟩).exitCode = some 7 ∧
      (ServerProcess.stop ⟨some 7, none, none, none, some []⟩).exitCode ≠ some 0 := by
  refine ⟨by decide, by decide⟩

/-- C3 (amended): `stop` writes the literal `"stop"` plus a newline to the
process input stream first; a terminate signal is sent only if the graceful
wait timed out and a kill signal only if the terminate-stage wait also timed
out, with no stage skipped; the call returns the observed exit code, and when
the process had already exited before `stop` was called it returns that prior
exit code (0 only as a fallback when no exit code is observable). -/
theorem stop_escalation_spec (p : ServerProcess) (w : List String)
    (hstdin : p.stdinWrites = some w) :
    (∀ c, p.pollResult = some c → p.stop = ⟨p, [], some c⟩) ∧
    (p.pollResult = none →
      (p.stop.proc.stdinWrites = some (w ++ ["stop\n"]) ∧
       (∀ c, p.waitStop = some c → p.stop.signals = [] ∧ p.stop.exitCode = some c) ∧
       (p.waitStop = none → ∀ c, p.waitTerminate = some c →
          p.stop.signals = [StopSignal.terminate] ∧ p.stop.exitCode = some c) ∧
       (p.waitStop = none → p.waitTerminate = none →
          p.stop.signals = [StopSignal.terminate, StopSignal.kill] ∧
            p.stop.exitCode = p.waitKill))) := by
  obtain ⟨poll, ws, wt, wk, stdin⟩ := p
  cases stdin with
  | none => cases hstdin
  | some w' =>
    obtain rfl : w' = w := by cases hstdin; rfl
    constructor
    · rintro c rfl
      simp [ServerProcess.stop, ServerProcess.is_running, ServerProcess.poll]
    · rintro rfl
      refine ⟨?_, ?_, ?_, ?_⟩
      · cases ws <;> cases wt <;>
          simp [ServerProcess.stop, ServerProcess.is_running, ServerProcess.poll,
            ServerProcess.send_command, strEndsWith] <;> decide
      · rintro c rfl
        simp [ServerProcess.stop, ServerProcess.is_running, ServerProcess.poll,
          ServerProcess.send_command]
      · rintro rfl c rfl
        simp [ServerProcess.stop, ServerProcess.is_running, ServerProcess.poll,
          ServerProcess.send_command]
      · rintro rfl rfl
        simp [ServerProcess.stop, ServerProcess.is_running, ServerProcess.poll,
          ServerProcess.send_command]

/-- Witness for C3's amended theorem at a process that exits naturally with
code 0 after the in-band stop command. -/
theorem stop_escalation_spec_witness :
    (⟨none, some 0, none, none, some []⟩ : ServerProcess).stdinWrites
        = some ([] : List String) ∧
      ((⟨none, some 0, none, none, some []⟩ : ServerProcess).stop.signals = [] ∧
        (⟨none, some 0, none, none, some []⟩ : ServerProcess).stop.exitCode = some 0) :=
  ⟨rfl, ((stop_escalation_spec ⟨none, some 0, none, none, some []⟩ [] rfl).2 rfl).2.1 0 rfl⟩

/-- C9: `send_command` appends a trailing newline when one is absent, writes
the result to the process input stream, and is a no-op (never an error) when
the input stream is unavailable. -/
theorem send_command_newline_and_noop (p : ServerProcess) (command : String) :
    (p.stdinWrites = none → p.send_command command = p) ∧
    (∀ w, p.stdinWrites = some w → strEndsWith command "\n" = true →
      p.send_command command = { p with stdinWrites := some (w ++ [command]) }) ∧
    (∀ w, p.stdinWrites = some w → strEndsWith command "\n" = false →
      p.send_command command = { p with stdinWrites := some (w ++ [command ++ "\n"]) }) := by
  obtain ⟨poll, ws, wt, wk, stdin⟩ := p
  refine ⟨?_, ?_, ?_⟩
  · rintro rfl
    rfl
  · rintro w rfl h
    simp [ServerProcess.send_command, h]
  · rintro w rfl h
    simp [ServerProcess.send_command, h]

/-- Witness for C9 at the command `"list"` (no trailing newline) on a process
with an open, empty stdin pipe. -/
theorem send_command_newline_and_noop_witness :
    (⟨none, none, none, none, some []⟩ : ServerProcess).stdinWrites
        = some ([] : List String) ∧
      strEndsWith "list" "\n" = false ∧
      ServerProcess.send_command ⟨none, none, none, none, some []⟩ "list"
        = ⟨none, none, none, none, some ["list\n"]⟩ := by
  refine ⟨rfl, by decide, ?_⟩
  have h := (send_command_newline_and_noop ⟨none, none, none, none, some []⟩ "list").2.2
    [] rfl (by decide)
  simpa using h

/-! ## Data model (`mcserverlib/models.py`)

Python's truthiness test on an optional list (`if self.windows:`) is false
both for `None` and for an empty list; `pyTruthyList` captures that. -/

/-- Truthiness of a `list[str] | None` Python value. -/
def pyTruthyList : Option (List String) → Bool
  | some (_ :: _) => true
  | _ => false

structure StartCommands where
  default : List String
  windows : Option (List String)
  posix : Option (List String)
  deriving Repr, DecidableEq

/-- `StartCommands.for_platform`, with `os.name == "nt"` supplied as the
`isWindowsOs` argument. -/
def StartCommands.for_platform (sc : StartCommands) (isWindowsOs : Bool) : List String :=
  if isWindowsOs && pyTruthyList sc.windows then sc.windows.getD []
  else if !isWindowsOs && pyTruthyList sc.posix then sc.posix.getD []
  else sc.default

/-- The dictionary produced by `StartCommands.to_dict` (its values keep the
shapes the source always emits). -/
structure StartDict where
  default : List String
  windows : Option (List String)
  posix : Option (List String)
  deriving Repr, DecidableEq

/-- `StartCommands.to_dict`: `list(self.windows) if self.windows else None`
normalizes an empty (or absent) override to `None`. -/
def StartCommands.to_dict (sc : StartCommands) : StartDict :=
  ⟨sc.default,
    if pyTruthyList sc.windows then sc.windows else none,
    if pyTruthyList sc.posix then sc.posix else none⟩

/-- `StartCommands.from_dict`: `data.get("windows")` is tested for truthiness
before being copied, so an empty list again becomes `None`. -/
def StartCommands.from_dict (d : StartDict) : StartCommands :=
  ⟨d.default,
    if pyTruthyList d.windows then d.windows else none,
    if pyTruthyList d.posix then d.posix else none⟩

structure ServerManifest where
  loader : String
  minecraft_version : String
  start : StartCommands
  loader_version : Option String
  build : Option String
  java_required : Option Int
  downloaded_urls : List String
  schema_version : Int
  installed_at_utc : String
  deriving Repr, DecidableEq

/-- The dictionary produced by `ServerManifest.to_dict`. -/
structure ManifestDict where
  schema_version : Int
  loader : String
  minecraft_version : String
  loader_version : Option String
  build : Option String
  java_required : Option Int
  start : StartDict
  downloaded_urls : List String
  installed_at_utc : String
  deriving Repr, DecidableEq

/-- `ServerManifest.to_dict`. -/
def ServerManifest.to_dict (m : ServerManifest) : ManifestDict :=
  { schema_version := m.schema_version
    loader := m.loader
    minecraft_version := m.minecraft_version
    loader_version := m.loader_version
    build := m.build
    java_required := m.java_required
    start := m.start.to_dict
    downloaded_urls := m.downloaded_urls
    installed_at_utc := m.installed_at_utc }

/-- `ServerManifest.from_dict`: the `str(...) if ... is not None else None`
conversions are identities on already-typed fields. -/
def ServerManifest.from_dict (d : ManifestDict) : ServerManifest :=
  { schema_version := d.schema_version
    loader := d.loader
    minecraft_version := d.minecraft_version
    loader_version := d.loader_version
    build := d.build
    java_required := d.java_required
    start := StartCommands.from_dict d.start
    downloaded_urls := d.downloaded_urls
    installed_at_utc := d.installed_at_utc }

/-- A manifest whose `windows` start-command override is present but empty. -/
def manifestWithEmptyWindowsOverride : ServerManifest :=
  { loader := "paper"
    minecraft_version := "1.21.11"
    start := ⟨["{java}", "-jar", "server.jar", "nogui"], some [], none⟩
    loader_version := none
    build := none
    java_required := none
    downloaded_urls := []
    schema_version := 1
    installed_at_utc := "2026-01-01T00:00:00+00:00" }

/-- C8 counterexample: serializing and reconstructing a manifest whose
`windows` override is the empty list does not reproduce it — the empty
override is normalized to `None` on the way through the dictionaries. -/
theorem manifest_round_trip_not_exact :
    ServerManifest.from_dict manifestWithEmptyWindowsOverride.to_dict
      ≠ manifestWithEmptyWindowsOverride := by
  decide

/-- C8 (amended): for every manifest whose `windows` and `posix` override
sequences are not present-but-empty, `to_dict` followed by `from_dict`
reproduces every field exactly, including the `StartCommands` sequences;
a present-but-empty override is normalized to `None` by the round trip. -/
theorem manifest_round_trip_exact (m : ServerManifest)
    (hw : m.start.windows ≠ some []) (hp : m.start.posix ≠ some []) :
    ServerManifest.from_dict m.to_dict = m := by
  obtain ⟨loader, mc, ⟨d, w, p⟩, lv, b, jr, urls, sv, ts⟩ := m
  simp only [ServerManifest.from_dict, ServerManifest.to_dict,
    StartCommands.from_dict, StartCommands.to_dict]
  rcases w with _ | ⟨_ | ⟨x, xs⟩⟩ <;> rcases p with _ | ⟨_ | ⟨y, ys⟩⟩ <;>
    simp [pyTruthyList] <;> simp at hw hp

/-- Witness for C8's amended theorem at a manifest with a nonempty `windows`
override and no `posix` override. -/
theorem manifest_round_trip_exact_witness :
    (⟨"forge", "1.21.11", ⟨["{java}", "nogui"], some ["{java}", "w"], none⟩,
        some "61.1.1", none, some 21, ["https://example.invalid/a.jar"], 1,
        "t"⟩ : ServerManifest).start.windows ≠ some [] ∧
      (⟨"forge", "1.21.11", ⟨["{java}", "nogui"], some ["{java}", "w"], none⟩,
          some "61.1.1", none, some 21, ["https://example.invalid/a.jar"], 1,
          "t"⟩ : ServerManifest).start.posix ≠ some [] ∧
      ServerManifest.from_dict
          (ServerManifest.to_dict
            ⟨"forge", "1.21.11", ⟨["{java}", "nogui"], some ["{java}", "w"], none⟩,
              some "61.1.1", none, some 21, ["https://example.invalid/a.jar"], 1, "t"⟩)
        = ⟨"forge", "1.21.11", ⟨["{java}", "nogui"], some ["{java}", "w"], none⟩,
            some "61.1.1", none, some 21, ["https://example.invalid/a.jar"], 1, "t"⟩ :=
  ⟨by decide, by decide,
    manifest_round_trip_exact _ (by decide) (by decide)⟩

/-! ## Start-command builder and validator (`mcserverlib/manager.py`) -/

/-- Python `str.strip()` (no argument): remove leading and trailing
whitespace. -/
def pyStripWs (s : String) : String :=
  String.mk (((s.toList.dropWhile Char.isWhitespace).reverse.dropWhile
    Char.isWhitespace).reverse)

/-- `c in s` for a single character. -/
def strContainsChar (s : String) (c : Char) : Bool :=
  s.toList.contains c

/-- Truthiness of a `str | None` Python value: `None` and `""` are falsy. -/
def pyTruthyStr : Option String → Bool
  | some s => s ≠ ""
  | none => false

/-- `ServerManager._validate_java_path`. -/
def ServerManager.validate_java_path (java_path : String) : Except LibError Unit :=
  let value := pyStripWs java_path
  if value = "" then
    .error (.manifestError "Java path cannot be empty.")
  else if strContainsChar value (Char.ofNat 0) || strContainsChar value '\r'
      || strContainsChar value '\n' then
    .error (.manifestError "Java path contains unsupported characters.")
  else
    .ok ()

/-- The per-token checks of `ServerManager._validate_start_template`, raising
at the first offending token. (The `isinstance(token, str)` check cannot fail
in the embedding, where every token is a string.) -/
def validateTemplateTokens : List String → Except LibError Unit
  | [] => .ok ()
  | token :: rest =>
    if pyStripWs token = "" then
      .error (.manifestError "Start command contains an empty token.")
    else if token.length > 1024 then
      .error (.manifestError "Start command token exceeds supported length.")
    else if strContainsChar token (Char.ofNat 0) || strContainsChar token '\r'
        || strContainsChar token '\n' then
      .error (.manifestError "Start command contains unsupported characters.")
    else if token = "|" || token = "||" || token = "&&" || token = ";" then
      .error (.manifestError "Start command contains blocked shell token.")
    else
      validateTemplateTokens rest

/-- `ServerManager._validate_start_template`. -/
def ServerManager.validate_start_template (raw_command : List String) :
    Except LibError Unit :=
  if raw_command = [] then
    .error (.manifestError "Start command is empty.")
  else if raw_command.length > 80 then
    .error (.manifestError "Start command contains too many arguments.")
  else if raw_command.headD "" ≠ "{java}" then
    .error (.manifestError "Start command is invalid. First token must be '\x7bjava\x7d'.")
  else
    validateTemplateTokens raw_command

/-- `ServerManager.build_start_command`, with the host OS supplied as
`isWindowsOs`. Exceptions of the two validators propagate; otherwise the
`{java}` placeholder is substituted and the memory/JVM flags are spliced in
immediately after the java executable token. -/
def ServerManager.build_start_command (manifest : ServerManifest) (isWindowsOs : Bool)
    (java_path : String) (xms xmx : Option String) (jvm_args : Option (List String)) :
    Except LibError (List String) :=
  match ServerManager.validate_java_path java_path with
  | .error e => .error e
  | .ok () =>
    let raw_command := manifest.start.for_platform isWindowsOs
    match ServerManager.validate_start_template raw_command with
    | .error e => .error e
    | .ok () =>
      let command := raw_command.map
        (fun token => if token = "{java}" then java_path else token)
      if raw_command.contains "{java}" && !command.isEmpty then
        let insert_at := command.indexOf java_path + 1
        let extra :=
          (if pyTruthyStr xms then ["-Xms" ++ xms.getD ""] else [])
            ++ (if pyTruthyStr xmx then ["-Xmx" ++ xmx.getD ""] else [])
            ++ jvm_args.getD []
        if extra ≠ [] then
          .ok (command.take insert_at ++ extra ++ command.drop insert_at)
        else
          .ok command
      else
        .ok command

/-- C6: for every manifest whose selected template passes validation (such a
template starts with the `{java}` placeholder), `build_start_command`
substitutes the java path for the placeholder and splices `-Xms`, `-Xmx`,
then the extra JVM args, in that order, immediately after the java executable
token and before the rest of the template. -/
theorem build_start_command_inserts_after_java
    (m : ServerManifest) (isW : Bool) (jp : String)
    (xms xmx : Option String) (jargs : Option (List String)) (rest : List String)
    (hplat : m.start.for_platform isW = "{java}" :: rest)
    (hjp : ServerManager.validate_java_path jp = .ok ())
    (htmpl : ServerManager.validate_start_template ("{java}" :: rest) = .ok ()) :
    ServerManager.build_start_command m isW jp xms xmx jargs =
      .ok (jp ::
        ((if pyTruthyStr xms then ["-Xms" ++ xms.getD ""] else [])
          ++ (if pyTruthyStr xmx then ["-Xmx" ++ xmx.getD ""] else [])
          ++ jargs.getD []
          ++ rest.map (fun token => if token = "{java}" then jp else token))) := by
  simp only [ServerManager.build_start_command, hjp, hplat, htmpl]
  simp only [List.contains_cons, beq_self_eq_true, Bool.true_or, List.map_cons, if_pos rfl,
    List.isEmpty_cons, Bool.not_false, Bool.and_true, Bool.true_and, if_true]
  by_cases hextra :
      ((if pyTruthyStr xms then ["-Xms" ++ xms.getD ""] else [])
        ++ (if pyTruthyStr xmx then ["-Xmx" ++ xmx.getD ""] else [])
        ++ jargs.getD []) = []
  · simp [hextra]
  · simp [hextra, List.indexOf_cons_self]
    intro h1 h2 h3
    exact absurd (by simp [h1, h2, h3]) hextra

/-- Witness for C6 at the template `["{java}", "-jar", "server.jar", "nogui"]`
with `java_path = "java"`, `xms = "2G"`, `xmx = "4G"`,
`jvm_args = ["-Dfoo=1"]`. -/
theorem build_start_command_inserts_after_java_witness :
    (⟨"vanilla", "1.21.11", ⟨["{java}", "-jar", "server.jar", "nogui"], none, none⟩,
        none, none, none, [], 1, "t"⟩ : ServerManifest).start.for_platform false
        = "{java}" :: ["-jar", "server.jar", "nogui"] ∧
      ServerManager.validate_java_path "java" = .ok () ∧
      ServerManager.validate_start_template
          ("{java}" :: ["-jar", "server.jar", "nogui"]) = .ok () ∧
      ServerManager.build_start_command
          ⟨"vanilla", "1.21.11", ⟨["{java}", "-jar", "server.jar", "nogui"], none, none⟩,
            none, none, none, [], 1, "t"⟩
          false "java" (some "2G") (some "4G") (some ["-Dfoo=1"])
        = .ok ["java", "-Xms2G", "-Xmx4G", "-Dfoo=1", "-jar", "server.jar", "nogui"] := by
  refine ⟨rfl, rfl, rfl, ?_⟩
  have h := build_start_command_inserts_after_java
    ⟨"vanilla", "1.21.11", ⟨["{java}", "-jar", "server.jar", "nogui"], none, none⟩,
      none, none, none, [], 1, "t"⟩
    false "java" (some "2G") (some "4G") (some ["-Dfoo=1"])
    ["-jar", "server.jar", "nogui"] rfl rfl rfl
  simpa using h

/-! ## Start-command path safety (`mcserverlib/manager.py`)

Paths are modelled with POSIX semantics: an absolute path is a list of
components, `instance_dir` is already resolved, and `Path.resolve()` of
`instance_dir / relative` folds the relative components over it (`..` pops a
component, staying at the filesystem root when there is none; `.` and empty
components are ignored; no symlinks are modelled). -/

/-- Python `str.strip(chars)` for a character class. -/
def pyStripChars (s : String) (p : Char → Bool) : String :=
  String.mk (((s.toList.dropWhile p).reverse.dropWhile p).reverse)

/-- The characters removed by `.strip("\"'")`. -/
def isQuoteChar (c : Char) : Bool :=
  c = '"' || c = '\''

/-- `s[n:]` on Python strings. -/
def strDrop (s : String) (n : Nat) : String :=
  String.mk (s.toList.drop n)

/-- Python `str.split(sep)` for a one-character separator (keeps empty
pieces, as Python does). -/
def splitCharAux (c : Char) : List Char → List Char → List String
  | [], acc => [String.mk acc.reverse]
  | x :: xs, acc =>
    if x = c then String.mk acc.reverse :: splitCharAux c xs []
    else splitCharAux c xs (x :: acc)

/-- `s.split(c)`. -/
def splitChar (c : Char) (s : String) : List String :=
  splitCharAux c s.toList []

/-- `(instance_dir / path).resolve()` on the component lists. -/
def resolveComponents (dir : List String) (comps : List String) : List String :=
  comps.foldl (fun acc comp =>
    if comp = "" || comp = "." then acc
    else if comp = ".." then acc.dropLast
    else acc ++ [comp]) dir

/-- ASCII `str.lower` for one character. -/
def pyCharLower (c : Char) : Char :=
  if 'A' ≤ c && c ≤ 'Z' then Char.ofNat (c.toNat + 32) else c

/-- Python `str.lower`, restricted to ASCII (every string the source compares
case-insensitively — hex digests, schemes, filename suffixes — is ASCII). -/
def pyLower (s : String) : String :=
  String.mk (s.toList.map pyCharLower)

/-- CPython `PurePath.suffix` of a final path component: `name[i:]` for the
last `.` at index `i` when `0 < i < len(name) - 1`, else the empty string. -/
def pySuffix (name : String) : String :=
  let cs := name.toList
  match ((List.range cs.length).filter (fun i => cs.getD i ' ' = '.')).getLast? with
  | some i => if 0 < i && i < cs.length - 1 then String.mk (cs.drop i) else ""
  | none => ""

/-- `ServerManager._resolve_under_instance_dir`: strip surrounding whitespace
and quotes, reject absolute paths, resolve against the instance directory and
reject results that escape it. -/
def ServerManager.resolve_under_instance_dir (token : String)
    (instance_dir : List String) : Except LibError (List String) :=
  let normalized := pyStripChars (pyStripWs token) isQuoteChar
  if strStartsWith normalized "/" then
    .error (.manifestError
      "Start command contains absolute paths, which are blocked for security.")
  else
    let candidate := resolveComponents instance_dir (splitChar '/' normalized)
    if instance_dir.isPrefixOf candidate then
      .ok candidate
    else
      .error (.manifestError
        "Start command contains path traversal outside the server directory.")

/-- The loop body of `ServerManager._validate_start_paths` for one token:
the argfile check on tokens starting with `@` (beyond a bare `@`). -/
def argfileCheck (instance_dir : List String) (token : String) :
    Except LibError Unit :=
  if strStartsWith token "@" && token.length > 1 then
    match ServerManager.resolve_under_instance_dir (strDrop token 1) instance_dir with
    | .error e => .error e
    | .ok _ => .ok ()
  else
    .ok ()

/-- The loop body of `ServerManager._validate_start_paths` for one token:
the check on the token following `-jar` (skipped when `-jar` is last). -/
def jarCheck (instance_dir : List String) (token : String) (rest : List String) :
    Except LibError Unit :=
  if token = "-jar" then
    match rest with
    | next :: _ =>
      match ServerManager.resolve_under_instance_dir next instance_dir with
      | .error e => .error e
      | .ok jar_path =>
        if pyLower (pySuffix (jar_path.getLastD "")) ≠ ".jar" then
          .error (.manifestError "Start command '-jar' target must be a .jar file.")
        else
          .ok ()
    | [] => .ok ()
  else
    .ok ()

/-- `ServerManager._validate_start_paths`, iterating the two checks over the
template and raising at the first offending token. -/
def ServerManager.validate_start_paths (raw_command : List String)
    (instance_dir : List String) : Except LibError Unit :=
  match raw_command with
  | [] => .ok ()
  | token :: rest =>
    match argfileCheck instance_dir token with
    | .error e => .error e
    | .ok () =>
      match jarCheck instance_dir token rest with
      | .error e => .error e
      | .ok () => ServerManager.validate_start_paths rest instance_dir

/-- Claim-side condition: the token, after stripping surrounding whitespace
and quotes, is a relative path that still lies inside the instance directory
once resolved. -/
def insideInstanceDir (instance_dir : List String) (token : String) : Bool :=
  let normalized := pyStripChars (pyStripWs token) isQuoteChar
  !(strStartsWith normalized "/")
    && instance_dir.isPrefixOf (resolveComponents instance_dir (splitChar '/' normalized))

/-- Claim-side condition on a `-jar` target: inside the instance directory
and carrying a `.jar` suffix (case-insensitively). -/
def jarTargetOk (instance_dir : List String) (token : String) : Bool :=
  insideInstanceDir instance_dir token
    && pyLower (pySuffix ((resolveComponents instance_dir
        (splitChar '/' (pyStripChars (pyStripWs token) isQuoteChar))).getLastD ""))
      == ".jar"

/-- Claim-side restatement of C4 over a whole template: every argfile token
and every `-jar` successor satisfies its condition. -/
def startPathTokensOk (instance_dir : List String) : List String → Bool
  | [] => true
  | token :: rest =>
    (!(strStartsWith token "@" && token.length > 1)
        || insideInstanceDir instance_dir (strDrop token 1))
      && (!(token == "-jar" && !rest.isEmpty) || jarTargetOk instance_dir (rest.headD ""))
      && startPathTokensOk instance_dir rest

lemma resolve_under_isOk (dir : List String) (t : String) :
    exceptIsOk (ServerManager.resolve_under_instance_dir t dir)
      = insideInstanceDir dir t := by
  unfold ServerManager.resolve_under_instance_dir insideInstanceDir
  by_cases h : strStartsWith (pyStripChars (pyStripWs t) isQuoteChar) "/" = true
  · simp [h, exceptIsOk]
  · by_cases h2 : dir.isPrefixOf
        (resolveComponents dir (splitChar '/' (pyStripChars (pyStripWs t) isQuoteChar)))
        = true
    · simp [h, h2, exceptIsOk]
    · simp [h, h2, exceptIsOk]

lemma resolve_under_ok_value (dir : List String) (t : String) (c : List String)
    (h : ServerManager.resolve_under_instance_dir t dir = .ok c) :
    c = resolveComponents dir (splitChar '/' (pyStripChars (pyStripWs t) isQuoteChar)) := by
  unfold ServerManager.resolve_under_instance_dir at h
  by_cases h1 : strStartsWith (pyStripChars (pyStripWs t) isQuoteChar) "/" = true
  · simp [h1] at h
  · by_cases h2 : dir.isPrefixOf
        (resolveComponents dir (splitChar '/' (pyStripChars (pyStripWs t) isQuoteChar)))
        = true
    · simp only [h1, h2, Bool.false_eq_true, if_false, if_true] at h
      exact (Except.ok.injEq _ _ ▸ h).symm
    · simp [h1, h2] at h

lemma argfileCheck_isOk (dir : List String) (token : String) :
    (argfileCheck dir token = .ok ())
      = ((!(strStartsWith token "@" && token.length > 1)
          || insideInstanceDir dir (strDrop token 1)) = true) := by
  unfold argfileCheck
  by_cases h : (strStartsWith token "@" && token.length > 1) = true
  · rw [← resolve_under_isOk]
    cases hres : ServerManager.resolve_under_instance_dir (strDrop token 1) dir with
    | ok c => simp [h, hres, exceptIsOk]
    | error e => simp [h, hres, exceptIsOk]
  · simp [h]

lemma jarCheck_isOk (dir : List String) (token : String) (rest : List String) :
    (jarCheck dir token rest = .ok ())
      = ((!(token == "-jar" && !rest.isEmpty) || jarTargetOk dir (rest.headD "")) = true) := by
  unfold jarCheck
  by_cases h : token = "-jar"
  · cases rest with
    | nil => simp [h]
    | cons next more =>
      cases hres : ServerManager.resolve_under_instance_dir next dir with
      | error e =>
        have hin : insideInstanceDir dir next = false := by
          rw [← resolve_under_isOk, hres]; rfl
        simp [h, hres, jarTargetOk, hin]
      | ok jar_path =>
        have hin : insideInstanceDir dir next = true := by
          rw [← resolve_under_isOk, hres]; rfl
        have hval := resolve_under_ok_value dir next jar_path hres
        by_cases hs : pyLower (pySuffix (jar_path.getLastD "")) = ".jar"
        · simp [h, hres, hs, jarTargetOk, hin, ← hval]
        · simp [h, hres, hs, jarTargetOk, hin, ← hval]
  · simp [h]

/-- C4: `_validate_start_paths` succeeds exactly when every token starting
with `@` and every token following a `-jar` token resolves, after stripping
surrounding quotes, to a relative path inside the instance directory, the
`-jar` target additionally carrying a `.jar` suffix; and on the spec's
examples (instance directory `/srv/inst`): `@../outside.txt`,
`-jar ../../evil.jar` and an absolute `-jar /srv/evil.jar` fail with a
`ManifestError`, while `@libraries/ok.txt` and `-jar server.jar` pass. -/
theorem validate_start_paths_correct :
    (∀ (dir raw : List String),
      (ServerManager.validate_start_paths raw dir = .ok ())
        ↔ startPathTokensOk dir raw = true) ∧
    exceptIsOk (ServerManager.validate_start_paths
      ["{java}", "@../outside.txt"] ["srv", "inst"]) = false ∧
    exceptIsOk (ServerManager.validate_start_paths
      ["{java}", "-jar", "../../evil.jar"] ["srv", "inst"]) = false ∧
    exceptIsOk (ServerManager.validate_start_paths
      ["{java}", "-jar", "/srv/evil.jar"] ["srv", "inst"]) = false ∧
    ServerManager.validate_start_paths
      ["{java}", "@libraries/ok.txt"] ["srv", "inst"] = .ok () ∧
    ServerManager.validate_start_paths
      ["{java}", "-jar", "server.jar", "nogui"] ["srv", "inst"] = .ok () := by
  refine ⟨fun dir raw => ?_, by decide, by decide, by decide, rfl, rfl⟩
  induction raw with
  | nil => simp [ServerManager.validate_start_paths, startPathTokensOk]
  | cons token rest ih =>
    cases hafc : argfileCheck dir token with
    | error e =>
      have hne : ¬ (argfileCheck dir token = .ok ()) := by simp [hafc]
      rw [argfileCheck_isOk] at hne
      have hc1 : (!(strStartsWith token "@" && token.length > 1)
          || insideInstanceDir dir (strDrop token 1)) = false := by
        cases hb : (!(strStartsWith token "@" && token.length > 1)
            || insideInstanceDir dir (strDrop token 1))
        · rfl
        · exact absurd hb hne
      rw [ServerManager.validate_start_paths, startPathTokensOk]
      simp only [hafc, hc1, Bool.false_and]
      exact iff_of_false (by simp) (by simp)
    | ok u =>
      obtain rfl : u = () := rfl
      have h1 : (!(strStartsWith token "@" && token.length > 1)
          || insideInstanceDir dir (strDrop token 1)) = true := by
        rw [← argfileCheck_isOk]; exact hafc
      cases hjc : jarCheck dir token rest with
      | error e =>
        have hne : ¬ (jarCheck dir token rest = .ok ()) := by simp [hjc]
        rw [jarCheck_isOk] at hne
        have hc2 : (!(token == "-jar" && !rest.isEmpty)
            || jarTargetOk dir (rest.headD "")) = false := by
          cases hb : (!(token == "-jar" && !rest.isEmpty)
              || jarTargetOk dir (rest.headD ""))
          · rfl
          · exact absurd hb hne
        rw [ServerManager.validate_start_paths, startPathTokensOk]
        simp only [hafc, hjc, h1, hc2, Bool.true_and, Bool.false_and]
        exact iff_of_false (by simp) (by simp)
      | ok u =>
        obtain rfl : u = () := rfl
        have h2 : (!(token == "-jar" && !rest.isEmpty)
            || jarTargetOk dir (rest.headD "")) = true := by
          rw [← jarCheck_isOk]; exact hjc
        rw [ServerManager.validate_start_paths, startPathTokensOk]
        simp only [hafc, hjc, h1, h2, Bool.true_and]
        exact ih

/-! ## `server.properties` handling during install (`ServerManager.install`)

`mcserverlib/utils.py` is not among the sources at hand, so
`write_server_properties` is modelled from the spec; the call site in
`manager.py` (the guard `if request.server_properties:`) is translated from
the source. A properties file is viewed as an association list with unique
keys. -/

/-- Association-list view of a parsed `server.properties` file. -/
abbrev Properties := List (String × String)

/-- `dict.update` of the overrides into the base mapping: keys named in the
overrides take the override value, every other base key keeps its prior
value, and new keys are appended. -/
def mergeProperties (base overrides : Properties) : Properties :=
  base.map (fun kv =>
    match overrides.lookup kv.1 with
    | some v => (kv.1, v)
    | none => kv)
    ++ overrides.filter (fun kv => (base.lookup kv.1).isNone)

/-- Modelled from the spec: `write_server_properties` of the missing
`mcserverlib/utils.py`. Per §4.5 it reads the existing `server.properties`
when one exists (else starts from the first-install default
`whitelist=true`), merges the caller overrides into it without clobbering
unrelated keys, and writes the result back. -/
def write_server_properties (existing : Option Properties)
    (properties : Properties) : Properties :=
  mergeProperties (existing.getD [("whitelist", "true")]) properties

/-- Truthiness of the optional `server_properties` mapping of an
`InstallRequest` (`None` and an empty mapping are falsy). -/
def pyTruthyProps : Option Properties → Bool
  | some (_ :: _) => true
  | _ => false

/-- The `server.properties` side effect of `ServerManager.install`
(`manager.py`): `write_server_properties` runs only under the guard
`if request.server_properties:`; with no (or an empty) overrides mapping the
file is left exactly as it was — in particular it is never created. -/
def ServerManager.installServerProperties (prior : Option Properties)
    (requested : Option Properties) : Option Properties :=
  if pyTruthyProps requested then
    some (write_server_properties prior (requested.getD []))
  else
    prior

/-- C1: evaluating the install pipeline's `server.properties` step. On a
fresh instance directory with no caller overrides the code leaves no
`server.properties` at all — so no `whitelist=true` default is written,
contrary to the claim and to the repository's own test
`test_install_writes_whitelist_enabled_by_default`. The merge path that runs
when overrides are supplied does behave as claimed: it installs the
first-install default on a fresh directory and preserves unrelated existing
keys over an existing file. -/
theorem install_fresh_no_overrides_writes_no_properties :
    ServerManager.installServerProperties none none = none ∧
      (ServerManager.installServerProperties none (some [("motd", "Hi")]))
        = some [("whitelist", "true"), ("motd", "Hi")] ∧
      (ServerManager.installServerProperties
          (some [("whitelist", "false"), ("motd", "Private world")])
          (some [("difficulty", "hard")]))
        = some [("whitelist", "false"), ("motd", "Private world"),
            ("difficulty", "hard")] := by
  exact ⟨rfl, rfl, rfl⟩

/-! ## Java-requirement enrichment (`mcserverlib/minecraft.py`, providers)

The outcome of resolving the version against the upstream Mojang manifest is
supplied as an `Except` input: an `error` models `resolve_mojang_version`
raising (network failure, version not found), an `ok` carries the fields of
the version-metadata document that the lookup reads. -/

/-- The part of a Mojang version-metadata document the lookup reads:
`javaVersion.majorVersion`, absent when the document has no such field. -/
structure VersionMetadata where
  javaMajorVersion : Option Int
  deriving Repr, DecidableEq

/-- `minecraft_java_requirement`: propagate a resolution failure, else read
`javaVersion.majorVersion` (`None` when absent). -/
def minecraft_java_requirement (resolved : Except LibError VersionMetadata) :
    Except LibError (Option Int) :=
  match resolved with
  | .error e => .error e
  | .ok metadata => .ok metadata.javaMajorVersion

/-- `PaperFamilyProvider.install` after build resolution (the artifact-name
check, the jar download, and the manifest construction): each network
interaction's outcome is an input. The Java-requirement lookup is evaluated
*unguarded* inside the manifest construction, so its exception propagates and
aborts the install. `FabricProvider`, `QuiltProvider` and `PurpurProvider`
contain the same unguarded call. -/
def PaperFamilyProvider.installFinish (loader_id project mc_version build_no : String)
    (artifact_name : Option String)
    (downloadResult : Except LibError Unit)
    (javaLookup : Except LibError (Option Int))
    (now : String) : Except LibError ServerManifest :=
  match artifact_name with
  | none =>
    .error (.runtimeError (project ++ " build metadata did not include application name."))
  | some name =>
    let download_url := "https://api.papermc.io/v2/projects/" ++ project
      ++ "/versions/" ++ mc_version ++ "/builds/" ++ build_no ++ "/downloads/" ++ name
    match downloadResult with
    | .error e => .error e
    | .ok () =>
      match javaLookup with
      | .error e => .error e
      | .ok java_required =>
        .ok { loader := loader_id
              minecraft_version := mc_version
              start := ⟨["{java}", "-jar", "server.jar", "nogui"], none, none⟩
              loader_version := none
              build := some build_no
              java_required := java_required
              downloaded_urls := [download_url]
              schema_version := 1
              installed_at_utc := now }

/-- `ForgeProvider.install`'s treatment of the same lookup: wrapped in
`try/except Exception`, any failure recorded as `None`
(`NeoForgeProvider.install` guards identically). -/
def ForgeProvider.javaRequired (javaLookup : Except LibError (Option Int)) : Option Int :=
  match javaLookup with
  | .ok v => v
  | .error _ => none

/-- C2 counterexample: a Paper install in which every step succeeds except
the best-effort Mojang lookup (failing with a `DownloadError`) aborts with
that error instead of succeeding with the requirement recorded as `None`. -/
theorem paper_install_aborts_on_java_lookup_failure :
    PaperFamilyProvider.installFinish "paper" "paper" "1.21.11" "12"
        (some "paper-1.21.11-12.jar") (.ok ())
        (.error (.downloadError "Request failed")) "t"
      = .error (.downloadError "Request failed") ∧
      exceptIsOk (PaperFamilyProvider.installFinish "paper" "paper" "1.21.11" "12"
        (some "paper-1.21.11-12.jar") (.ok ())
        (.error (.downloadError "Request failed")) "t") = false := by
  exact ⟨rfl, rfl⟩

/-- C2 (amended): for the Forge and NeoForge providers a failure of the
best-effort Java-requirement lookup is non-fatal and recorded as `None`; for
the Paper-family (and likewise Fabric, Quilt, Purpur) only a lookup that
succeeds with no recorded Java version yields `None`, while a lookup failure
propagates and aborts the install. -/
theorem java_lookup_failure_handling (e : LibError) :
    ForgeProvider.javaRequired (.error e) = none ∧
    minecraft_java_requirement (.ok ⟨none⟩) = .ok none ∧
    minecraft_java_requirement (.error e) = .error e ∧
    (∀ loader project mc build name now,
      (PaperFamilyProvider.installFinish loader project mc build (some name)
          (.ok ()) (.ok none) now).map (fun m => m.java_required) = .ok none) ∧
    (∀ loader project mc build name now,
      PaperFamilyProvider.installFinish loader project mc build (some name)
          (.ok ()) (.error e) now = .error e) := by
  exact ⟨rfl, rfl, rfl, fun _ _ _ _ _ _ => rfl, fun _ _ _ _ _ _ => rfl⟩

/-! ## Version catalog (`mcserverlib/catalog.py`)

The catalog's Forge/NeoForge Minecraft-version listings are functions of the
already-fetched Maven metadata version lists. The `stable_only` filter uses
`is_stable_version` from the missing `mcserverlib/utils.py`, modelled from
the spec. -/

/-- Substring occurrence on character lists. -/
def listHasSublist (pat : List Char) : List Char → Bool
  | [] => pat.isEmpty
  | x :: xs => pat.isPrefixOf (x :: xs) || listHasSublist pat xs

/-- Python `pat in s` substring containment. -/
def strContainsSub (s pat : String) : Bool :=
  listHasSublist pat.toList s.toList

/-- Modelled from the spec: `is_stable_version` of the missing
`mcserverlib/utils.py` — a version string is stable iff it contains none of
the case-insensitive pre-release markers. -/
def is_stable_version (v : String) : Bool :=
  !(["alpha", "beta", "rc", "pre", "snapshot"].any
    (fun marker => strContainsSub (pyLower v) marker))

/-- Python `str.isdigit` on ASCII components: nonempty and all digits. -/
def pyIsDigit (s : String) : Bool :=
  !s.toList.isEmpty && s.toList.all Char.isDigit

/-- `VersionCatalog._map_neoforge_to_mc`. -/
def VersionCatalog.map_neoforge_to_mc (neoforge_version : String) : Option String :=
  match splitChar '.' neoforge_version with
  | major :: minor :: _ =>
    if pyIsDigit major && pyIsDigit minor then
      some ("1." ++ major ++ "." ++ minor)
    else
      none
  | _ => none

/-- `version.split("-", 1)[0]`: everything before the first hyphen. -/
def splitHyphenHead (v : String) : String :=
  String.mk (v.toList.takeWhile (fun c => c ≠ '-'))

/-- `VersionCatalog._forge_mc_versions` on an already-fetched metadata list:
skip unstable entries under `stable_only`, skip entries without a hyphen,
keep the part before the first hyphen. -/
def VersionCatalog.forge_mc_versions (stable_only : Bool) (versions : List String) :
    List String :=
  versions.filterMap (fun version =>
    if stable_only && !is_stable_version version then none
    else if !(strContainsSub version "-") then none
    else some (splitHyphenHead version))

/-- `VersionCatalog._neoforge_mc_versions` on an already-fetched list. -/
def VersionCatalog.neoforge_mc_versions (stable_only : Bool) (versions : List String) :
    List String :=
  versions.filterMap (fun version =>
    if stable_only && !is_stable_version version then none
    else VersionCatalog.map_neoforge_to_mc version)

/-- C7: the Forge listing is exactly the stability-filtered metadata entries
that contain a hyphen, each contributing its Minecraft prefix; a NeoForge
metadata version maps to `1.<major>.<minor>` exactly when its first two
dot-separated components are both purely numeric (skipped otherwise); and on
the spec's examples `21.11.38-beta` maps to `1.21.11` but is excluded under
`stable_only`, `21.10.64` to `1.21.10`, and `21.1.219` to `1.21.1`. -/
theorem catalog_mc_version_mappings :
    (∀ (stable_only : Bool) (versions : List String),
      VersionCatalog.forge_mc_versions stable_only versions
        = (versions.filter
            (fun v => !stable_only || is_stable_version v)).filterMap
            (fun v => if strContainsSub v "-" then some (splitHyphenHead v) else none)) ∧
    (∀ v,
      VersionCatalog.map_neoforge_to_mc v
        = match splitChar '.' v with
          | major :: minor :: _ =>
            if pyIsDigit major && pyIsDigit minor then
              some ("1." ++ major ++ "." ++ minor)
            else none
          | _ => none) ∧
    VersionCatalog.map_neoforge_to_mc "21.11.38-beta" = some "1.21.11" ∧
    is_stable_version "21.11.38-beta" = false ∧
    VersionCatalog.map_neoforge_to_mc "21.10.64" = some "1.21.10" ∧
    VersionCatalog.map_neoforge_to_mc "21.1.219" = some "1.21.1" ∧
    VersionCatalog.neoforge_mc_versions true
        ["21.11.38-beta", "21.10.64", "21.1.219"] = ["1.21.10", "1.21.1"] ∧
    VersionCatalog.neoforge_mc_versions false
        ["21.11.38-beta", "21.10.64", "21.1.219"]
      = ["1.21.11", "1.21.10", "1.21.1"] ∧
    VersionCatalog.forge_mc_versions true ["1.21.11-61.1.1", "1.21.10-60.0.1"]
      = ["1.21.11", "1.21.10"] ∧
    VersionCatalog.forge_mc_versions false ["21w44a"] = [] := by
  refine ⟨?_, fun v => rfl, by decide, by decide, by decide, by decide, by decide,
    by decide, by decide, by decide⟩
  intro stable_only versions
  induction versions with
  | nil => rfl
  | cons v rest ih =>
    unfold VersionCatalog.forge_mc_versions at ih ⊢
    cases stable_only <;> cases hst : is_stable_version v <;>
      cases hh : strContainsSub v "-" <;>
        (simp [List.filterMap_cons, List.filter_cons, hst, hh] at ih ⊢) <;> exact ih

/-! ## HTTP transport (`mcserverlib/http.py`)

URLs are modelled structurally as the outputs of `urllib.parse.urlparse`
that `_validate_url` reads: the scheme and the hostname, the latter `none`
when the URL has no host, and otherwise either a DNS name or the IPv4
address it parses to (`ipaddress.ip_address` succeeds exactly on the literal
case). File contents are byte lists; the hash function is a parameter
standing for `hash_file` of the missing `mcserverlib/utils.py`. -/

inductive UrlHost where
  | name (host : String)
  | ip4 (a b c d : Nat)
  deriving Repr, DecidableEq

structure Url where
  scheme : String
  host : Option UrlHost
  deriving Repr, DecidableEq

/-- The numeric value of a dotted quad. -/
def ip4Value (a b c d : Nat) : Nat :=
  ((a * 256 + b) * 256 + c) * 256 + d

/-- Membership of an IPv4 address in a CIDR network. -/
def inNetwork (a b c d na nb nc nd plen : Nat) : Bool :=
  ip4Value a b c d / 2 ^ (32 - plen) = ip4Value na nb nc nd / 2 ^ (32 - plen)

/-- `IPv4Address.is_loopback` (127.0.0.0/8). -/
def ip4IsLoopback (a b c d : Nat) : Bool :=
  inNetwork a b c d 127 0 0 0 8

/-- `IPv4Address.is_link_local` (169.254.0.0/16). -/
def ip4IsLinkLocal (a b c d : Nat) : Bool :=
  inNetwork a b c d 169 254 0 0 16

/-- `IPv4Address.is_multicast` (224.0.0.0/4). -/
def ip4IsMulticast (a b c d : Nat) : Bool :=
  inNetwork a b c d 224 0 0 0 4

/-- `IPv4Address.is_reserved` (240.0.0.0/4). -/
def ip4IsReserved (a b c d : Nat) : Bool :=
  inNetwork a b c d 240 0 0 0 4

/-- `IPv4Address.is_private`: CPython's private-network list. -/
def ip4IsPrivate (a b c d : Nat) : Bool :=
  inNetwork a b c d 0 0 0 0 8
    || inNetwork a b c d 10 0 0 0 8
    || inNetwork a b c d 127 0 0 0 8
    || inNetwork a b c d 169 254 0 0 16
    || inNetwork a b c d 172 16 0 0 12
    || inNetwork a b c d 192 0 0 0 29
    || inNetwork a b c d 192 0 0 170 31
    || inNetwork a b c d 192 0 2 0 24
    || inNetwork a b c d 192 168 0 0 16
    || inNetwork a b c d 198 18 0 0 15
    || inNetwork a b c d 198 51 100 0 24
    || inNetwork a b c d 203 0 113 0 24
    || inNetwork a b c d 240 0 0 0 4
    || inNetwork a b c d 255 255 255 255 32

/-- `HttpClient._validate_url`. -/
def HttpClient.validate_url (url : Url) : Except LibError Unit :=
  if pyLower url.scheme ≠ "https" then
    .error (.downloadError "Blocked URL with unsupported scheme")
  else
    match url.host with
    | none => .error (.downloadError "Blocked URL with missing host")
    | some (.name _) => .ok ()
    | some (.ip4 a b c d) =>
      if ip4IsPrivate a b c d || ip4IsLoopback a b c d || ip4IsLinkLocal a b c d
          || ip4IsMulticast a b c d || ip4IsReserved a b c d then
        .error (.downloadError "Blocked URL targeting disallowed address")
      else
        .ok ()

/-- `HttpClient.get_text`: `_request` validates the URL before `urlopen`; the
subsequent network interaction's outcome (read, size-limited, decoded, with
`URLError` already wrapped into a `DownloadError`) is the `fetch` input. -/
def HttpClient.get_text (url : Url) (fetch : Except LibError String) :
    Except LibError String :=
  match HttpClient.validate_url url with
  | .error e => .error e
  | .ok () => fetch

/-- `HttpClient.get_json`: like `get_text` followed by JSON parsing. -/
def HttpClient.get_json {α : Type} (url : Url) (fetch : Except LibError String)
    (parse : String → Except LibError α) : Except LibError α :=
  match HttpClient.validate_url url with
  | .error e => .error e
  | .ok () =>
    match fetch with
    | .error e => .error e
    | .ok payload => parse payload

/-- What one successful `urlopen` exposes to `download`: the declared
`Content-Length` header (if any) and the body chunks the read loop yields. -/
structure HttpResponse where
  contentLength : Option String
  chunks : List (List Nat)
  deriving Repr, DecidableEq

/-- The download read loop: accumulate chunks into the temp file, aborting
as soon as the received byte count exceeds the limit. -/
def readChunksLimited (maxBytes : Nat) : List (List Nat) → Nat → Option (List Nat)
  | [], _ => some []
  | chunk :: rest, received =>
    let received' := received + chunk.length
    if received' > maxBytes then none
    else
      match readChunksLimited maxBytes rest received' with
      | some tail => some (chunk ++ tail)
      | none => none

/-- The `if content_length:` / `int(...)` / size check of `download`. -/
def declaredSizeExceeded (maxBytes : Nat) (contentLength : Option String) : Bool :=
  match contentLength with
  | some cl => if cl ≠ "" then (cl.toInt?.getD 0) > (maxBytes : Int) else false
  | none => false

/-- `HttpClient.download`: URL validation, then the response (an `error`
models `urlopen` raising, wrapped into a `DownloadError`), the declared-size
check, the limited read loop into a temp file in the destination's
directory, digest verification, and only then the atomic rename over the
destination. The returned pair is (call outcome carrying the installed
bytes, the destination file's content afterwards); on every failure the
temp file is removed and the destination is untouched. -/
def HttpClient.download (maxBytes : Nat) (url : Url)
    (resp : Except LibError HttpResponse) (hashFn : List Nat → String)
    (expected_hash : Option String) (priorDest : Option (List Nat)) :
    Except LibError (List Nat) × Option (List Nat) :=
  match HttpClient.validate_url url with
  | .error e => (.error e, priorDest)
  | .ok () =>
    match resp with
    | .error _ => (.error (.downloadError "Download failed"), priorDest)
    | .ok r =>
      if declaredSizeExceeded maxBytes r.contentLength then
        (.error (.downloadError "exceeds the size limit"), priorDest)
      else
        match readChunksLimited maxBytes r.chunks 0 with
        | none => (.error (.downloadError "exceeded the allowed size limit"), priorDest)
        | some content =>
          match expected_hash with
          | some h =>
            if pyLower (hashFn content) ≠ pyLower h then
              (.error (.downloadError "Hash mismatch"), priorDest)
            else
              (.ok content, some content)
          | none => (.ok content, some content)

/-- C5: whenever an expected digest is supplied, `download` either succeeds
installing destination content whose hash equals the digest under
case-insensitive comparison, or fails with a download error leaving the
destination exactly as it was before the call. -/
theorem download_digest_or_untouched (maxBytes : Nat) (url : Url)
    (resp : Except LibError HttpResponse) (hashFn : List Nat → String)
    (h : String) (prior : Option (List Nat)) :
    (∀ content dest,
      HttpClient.download maxBytes url resp hashFn (some h) prior = (.ok content, dest) →
        dest = some content ∧ pyLower (hashFn content) = pyLower h) ∧
    (∀ e dest,
      HttpClient.download maxBytes url resp hashFn (some h) prior = (.error e, dest) →
        dest = prior) := by
  unfold HttpClient.download
  cases HttpClient.validate_url url with
  | error e => refine ⟨?_, ?_⟩ <;> intro x y hxy <;> simp_all
  | ok u =>
    obtain rfl : u = () := rfl
    cases resp with
    | error e => refine ⟨?_, ?_⟩ <;> intro x y hxy <;> simp_all
    | ok r =>
      by_cases hdecl : declaredSizeExceeded maxBytes r.contentLength = true
      · refine ⟨?_, ?_⟩ <;> intro x y hxy <;> simp_all
      · cases hread : readChunksLimited maxBytes r.chunks 0 with
        | none => refine ⟨?_, ?_⟩ <;> intro x y hxy <;> simp_all
        | some content =>
          by_cases hhash : pyLower (hashFn content) ≠ pyLower h
          · refine ⟨?_, ?_⟩ <;> intro x y hxy <;> simp_all
          · push_neg at hhash
            refine ⟨?_, ?_⟩ <;> intro x y hxy <;> simp_all
            exact hxy.2.symm.trans (congrArg some hxy.1)

/-- Witness for C5: a download whose single chunk hashes (via a stub hash
naming the byte count) to the uppercase form of the expected digest
succeeds and installs exactly the downloaded bytes; the same download with a
different expected digest fails and leaves the prior destination content in
place. -/
theorem download_digest_or_untouched_witness :
    HttpClient.download 1024 ⟨"https", some (.name "example.com")⟩
        (.ok ⟨none, [[104, 105]]⟩) (fun content => "B" ++ toString content.length)
        (some "b2") (some [1, 2, 3])
      = (.ok [104, 105], some [104, 105]) ∧
      pyLower ((fun content => "B" ++ toString (List.length content)) [104, 105])
        = pyLower "b2" ∧
      HttpClient.download 1024 ⟨"https", some (.name "example.com")⟩
        (.ok ⟨none, [[104, 105]]⟩) (fun content => "B" ++ toString content.length)
        (some "ff") (some [1, 2, 3])
      = (.error (.downloadError "Hash mismatch"), some [1, 2, 3]) := by
  refine ⟨rfl, ?_, rfl⟩
  have hw := (download_digest_or_untouched 1024 ⟨"https", some (.name "example.com")⟩
    (.ok ⟨none, [[104, 105]]⟩) (fun content => "B" ++ toString content.length)
    "b2" (some [1, 2, 3])).1 [104, 105] (some [104, 105]) rfl
  exact hw.2

/-- C10: a URL whose scheme is not `https`, and a URL whose host is an
address in the loopback, private, link-local or multicast ranges, is
rejected by `_validate_url` with a download error; and on any URL failing
validation, `get_text`, `get_json` and `download` return that error without
the outcome depending on the network at all (no request is made). -/
theorem http_url_validation_rejects (url : Url) (e : LibError) :
    (pyLower url.scheme ≠ "https" →
      ∃ msg, HttpClient.validate_url url = .error (.downloadError msg)) ∧
    (∀ a b c d, url.host = some (.ip4 a b c d) →
      (ip4IsLoopback a b c d = true ∨ ip4IsPrivate a b c d = true ∨
        ip4IsLinkLocal a b c d = true ∨ ip4IsMulticast a b c d = true) →
      ∃ msg, HttpClient.validate_url url = .error (.downloadError msg)) ∧
    (HttpClient.validate_url url = .error e →
      (∀ fetch, HttpClient.get_text url fetch = .error e) ∧
      (∀ fetch (parse : String → Except LibError String),
        HttpClient.get_json url fetch parse = .error e) ∧
      (∀ maxBytes resp hashFn expected prior,
        HttpClient.download maxBytes url resp hashFn expected prior
          = (.error e, prior))) := by
  refine ⟨?_, ?_, ?_⟩
  · intro hscheme
    refine ⟨"Blocked URL with unsupported scheme", ?_⟩
    unfold HttpClient.validate_url
    simp [hscheme]
  · intro a b c d hhost hclass
    unfold HttpClient.validate_url
    by_cases hscheme : pyLower url.scheme ≠ "https"
    · exact ⟨"Blocked URL with unsupported scheme", by simp [hscheme]⟩
    · refine ⟨"Blocked URL targeting disallowed address", ?_⟩
      have hbad : (ip4IsPrivate a b c d || ip4IsLoopback a b c d
          || ip4IsLinkLocal a b c d || ip4IsMulticast a b c d
          || ip4IsReserved a b c d) = true := by
        rcases hclass with h | h | h | h <;> simp [h]
      simp [hscheme, hhost, hbad]
  · intro hval
    refine ⟨?_, ?_, ?_⟩
    · intro fetch
      unfold HttpClient.get_text
      rw [hval]
    · intro fetch parse
      unfold HttpClient.get_json
      rw [hval]
    · intro maxBytes resp hashFn expected prior
      unfold HttpClient.download
      rw [hval]

/-- Witness for C10 at the spec's two offending URLs: `http://example.com`
(plain-HTTP scheme) and `https://127.0.0.1` (loopback literal), the latter
exercised against `get_text` with an arbitrary network outcome. -/
theorem http_url_validation_rejects_witness :
    pyLower "http" ≠ "https" ∧
      (⟨"https", some (.ip4 127 0 0 1)⟩ : Url).host = some (.ip4 127 0 0 1) ∧
      ip4IsLoopback 127 0 0 1 = true ∧
      (∃ msg, HttpClient.validate_url ⟨"http", some (.name "example.com")⟩
        = .error (.downloadError msg)) ∧
      (∃ msg, HttpClient.validate_url ⟨"https", some (.ip4 127 0 0 1)⟩
        = .error (.downloadError msg)) ∧
      HttpClient.get_text ⟨"https", some (.ip4 127 0 0 1)⟩ (.ok "internal")
        = .error (.downloadError "Blocked URL targeting disallowed address") := by
  refine ⟨by decide, rfl, by decide, ?_, ?_, ?_⟩
  · exact (http_url_validation_rejects ⟨"http", some (.name "example.com")⟩
      (.downloadError "")).1 (by decide)
  · exact (http_url_validation_rejects ⟨"https", some (.ip4 127 0 0 1)⟩
      (.downloadError "")).2.1 127 0 0 1 rfl (Or.inl (by decide))
  · exact ((http_url_validation_rejects ⟨"https", some (.ip4 127 0 0 1)⟩
      (.downloadError "Blocked URL targeting disallowed address")).2.2 rfl).1 (.ok "internal")

end Mcserverlib
